import Mathlib

/-!
# Shallow embedding of `src/www/Media.js` (cordova-plugin-media)

The module under verification is the JavaScript client side of the Cordova
media plugin: a registry of `Media` handles keyed by generated id, a generic
command dispatcher `mediaExec` that wraps each public method as a bridge call
`exec(successCb, errorCb, "Media", method, args)`, and a status demultiplexer
`Media.onStatus`.

Modelling decisions:

* JavaScript objects `mediaObjects` (id → handle) are modelled as an
  association list `Registry` with functional update; handle mutation
  (`media._position = …`) becomes an update of the entry stored under the id.
* Ids produced by the external dependency `cordova/utils.createUUID` are
  modelled as an opaque `MediaId := Nat` drawn from a counter; the module
  treats ids opaquely (only equality is used).
* The `value` and position payloads exchanged with the native layer are the
  JS numbers the native side sends; they are modelled as `Int`.  The JS
  coercion `Number(value)` is modelled by `jsNumber`, the identity on this
  numeric domain.
* Callback invocations and `console.error` logging are recorded as `Event`s;
  the user callbacks stored on a handle are modelled by presence flags,
  matching the `if (media.statusCallback)` guards in the source.
* The closures built by the success/error adapters of `mediaExec` are
  defunctionalised into `SuccessCb` / `ErrorCb`; `runSuccess` gives the
  success closures their semantics when the bridge later invokes them.
  A thrown JS exception is modelled by an `Option JsErr` result component;
  mutations performed before the throw persist, as in JS.
-/

namespace CordovaMedia

/-- Opaque media id; `utils.createUUID` values are modelled by a counter. -/
abbrev MediaId := Nat

/-- A JavaScript value appearing in an argument position: a number, a string,
a supplied callback function, or `undefined` (a missing argument). -/
inductive JsArg where
  | num (n : Int)
  | str (s : String)
  | fn
  | undef
deriving DecidableEq, Repr

/-- A thrown JavaScript exception. -/
inductive JsErr where
  | typeError (msg : String)
  | jsError (msg : String)
deriving DecidableEq, Repr

/-- Observable effects: user-callback invocations and console logging. -/
inductive Event where
  | statusCb (i : MediaId) (value : Int)
  | successCb (i : MediaId)
  | errorCb (i : MediaId) (value : Int)
  | userCb (value : Int)
  | consoleError (msg : String)
deriving DecidableEq, Repr

/-- In-memory `Media` handle: `this.id`, `this.src`, the three stored user
callbacks (modelled by presence), `this._duration` and `this._position`. -/
structure MediaHandle where
  id : MediaId
  src : String
  hasSuccessCallback : Bool
  hasErrorCallback : Bool
  hasStatusCallback : Bool
  duration : Int
  position : Int
deriving DecidableEq, Repr

/-- The `mediaObjects` registry: id → handle, modelled as an assoc list. -/
abbrev Registry := List (MediaId × MediaHandle)

/-- `mediaObjects[i]` lookup: the first entry stored under key `i`. -/
def lookup : Registry → MediaId → Option MediaHandle
  | [], _ => none
  | p :: rest, i => if p.1 == i then some p.2 else lookup rest i

/-- `delete mediaObjects[i]`. -/
def removeObj (reg : Registry) (i : MediaId) : Registry :=
  reg.filter (fun p => p.1 != i)

/-- Mutate the handle stored under `i`. -/
def updateObj (reg : Registry) (i : MediaId) (f : MediaHandle → MediaHandle) :
    Registry :=
  reg.map (fun p => if p.1 == i then (p.1, f p.2) else p)

/-- `media._position = v` for the handle under `i`. -/
def setPosition (reg : Registry) (i : MediaId) (v : Int) : Registry :=
  updateObj reg i (fun m => { m with position := v })

/-- `media._duration = v` for the handle under `i`. -/
def setDuration (reg : Registry) (i : MediaId) (v : Int) : Registry :=
  updateObj reg i (fun m => { m with duration := v })

/-- JS `Number(value)` on the numeric domain of this embedding. -/
def jsNumber (v : Int) : Int := v

/-- Defunctionalised success callbacks handed to `exec`:
* `noCb` — `null`/`undefined` (from `nothing()` or an adapter with no return);
* `stopReset i` — `function() { player._position = 0; }` built by `stop`;
* `seekUpdate i f` — `function(p) { player._position = p; args[1](p); }`
  built by `seekTo`, where `f` is the captured `args[1]`;
* `posUpdate i f` — `function(p) { player._position = p; args[0](p) }`
  built by `getCurrentPosition`, where `f` is the captured `args[0]`;
* `userFn f` — a raw user-supplied argument passed through (`success`,
  the constructor's `createdCallback`). -/
inductive SuccessCb where
  | noCb
  | stopReset (i : MediaId)
  | seekUpdate (i : MediaId) (f : JsArg)
  | posUpdate (i : MediaId) (f : JsArg)
  | userFn (f : JsArg)
deriving DecidableEq, Repr

/-- Defunctionalised error callbacks handed to `exec`:
`fromHandle i` is `defaultErrorCallback`'s `self.errorCallback`;
`userArg f` is a raw argument (`fail`, `seekTo`'s `args[2]`). -/
inductive ErrorCb where
  | noCb
  | fromHandle (i : MediaId)
  | userArg (f : JsArg)
deriving DecidableEq, Repr

/-- One bridge call `exec(success, error, "Media", action, args)`. -/
structure ExecCall where
  success : SuccessCb
  error : ErrorCb
  service : String
  action : String
  args : List JsArg
deriving DecidableEq, Repr

/-- Calling a JS value as a function with one numeric argument: a supplied
function fires as an event; anything else throws a `TypeError`. -/
def callJs (f : JsArg) (p : Int) : List Event × Option JsErr :=
  match f with
  | .fn => ([Event.userCb p], none)
  | _ => ([], some (JsErr.typeError "is not a function"))

/-- Semantics of a success callback when the bridge invokes it with payload
`p`: the resulting registry, the events fired, and a thrown exception if any.
Mutations performed before a throw persist (JS semantics).  `noCb` is never
invoked by the bridge and does nothing. -/
def runSuccess (cb : SuccessCb) (p : Int) (reg : Registry) :
    Registry × List Event × Option JsErr :=
  match cb with
  | .noCb => (reg, [], none)
  | .stopReset i => (setPosition reg i 0, [], none)
  | .seekUpdate i f =>
      let r := setPosition reg i p
      let (evs, e) := callJs f p
      (r, evs, e)
  | .posUpdate i f =>
      let r := setPosition reg i p
      let (evs, e) := callJs f p
      (r, evs, e)
  | .userFn f =>
      let (evs, e) := callJs f p
      (reg, evs, e)

/-- The variadic `arguments` of a public method call. -/
abbrev CallArgs := List JsArg

/-- `args[n]`: missing arguments read as `undefined`. -/
def arg (args : CallArgs) (n : Nat) : JsArg := args.getD n JsArg.undef

/-- `mediaExec(nativeMethod, getOptions, getCallback, getErrorCallback)`:
returns the public method.  Faithful to the source, the adapters are invoked
at call time, left to right (`getCallback` first — it may mutate the registry,
as `release`'s does), and the bridge call record is produced; the bridge
itself is fire-and-forget.  `none` adapters default to `nothing`. -/
def mediaExec (nativeMethod : String)
    (getOptions : MediaHandle → CallArgs → List JsArg)
    (getCallback : Option (MediaHandle → CallArgs → Registry → Registry × SuccessCb))
    (getErrorCallback : Option (MediaHandle → CallArgs → ErrorCb)) :
    MediaHandle → CallArgs → Registry → Registry × ExecCall :=
  fun self args reg =>
    let gc := getCallback.getD (fun _ _ r => (r, SuccessCb.noCb))
    let ge := getErrorCallback.getD (fun _ _ => ErrorCb.noCb)
    let (reg1, succ) := gc self args reg
    (reg1,
      { success := succ
        error := ge self args
        service := "Media"
        action := nativeMethod
        args := getOptions self args })

/-- `function id(self) { return [self.id]; }` -/
def id (self : MediaHandle) (_ : CallArgs) : List JsArg := [JsArg.num self.id]

/-- `function defaultErrorCallback(self) { return self.errorCallback; }` -/
def defaultErrorCallback (self : MediaHandle) (_ : CallArgs) : ErrorCb :=
  ErrorCb.fromHandle self.id

/-- `function oneArgument(player, args) { return [player.id, args[0]]; }` -/
def oneArgument (player : MediaHandle) (args : CallArgs) : List JsArg :=
  [JsArg.num player.id, arg args 0]

/-- `function src(player) { return [player.id, player.src]; }` -/
def src (player : MediaHandle) (_ : CallArgs) : List JsArg :=
  [JsArg.num player.id, JsArg.str player.src]

/-- `function success(player, args) { return args[0]; }` -/
def success (_ : MediaHandle) (args : CallArgs) : Registry → Registry × SuccessCb :=
  fun reg => (reg, SuccessCb.userFn (arg args 0))

/-- `function fail(player, args) { return args[1]; }` -/
def fail (_ : MediaHandle) (args : CallArgs) : ErrorCb :=
  ErrorCb.userArg (arg args 1)

-- Media message constants
def MEDIA_STATE : Int := 1
def MEDIA_DURATION : Int := 2
def MEDIA_POSITION : Int := 3
def MEDIA_ERROR : Int := 9

-- Media state constants
def MEDIA_NONE : Int := 0
def MEDIA_STARTING : Int := 1
def MEDIA_RUNNING : Int := 2
def MEDIA_PAUSED : Int := 3
def MEDIA_STOPPED : Int := 4

namespace Media

/-- `Media.prototype.play`. -/
def play : MediaHandle → CallArgs → Registry → Registry × ExecCall :=
  mediaExec "startPlayingAudio"
    (fun player args => [JsArg.num player.id, JsArg.str player.src, arg args 1])
    (some success) none

/-- `Media.prototype.stop`: the success adapter returns the closure
`function() { player._position = 0; }`. -/
def stop : MediaHandle → CallArgs → Registry → Registry × ExecCall :=
  mediaExec "stopPlayingAudio" id
    (some (fun player _ reg => (reg, SuccessCb.stopReset player.id)))
    (some defaultErrorCallback)

/-- `Media.prototype.seekTo`: the success adapter returns the closure
`function(p) { player._position = p; args[1](p); }`; the error adapter
returns `args[2]`. -/
def seekTo : MediaHandle → CallArgs → Registry → Registry × ExecCall :=
  mediaExec "seekToAudio" oneArgument
    (some (fun player args reg => (reg, SuccessCb.seekUpdate player.id (arg args 1))))
    (some (fun _ args => ErrorCb.userArg (arg args 2)))

/-- `Media.prototype.pause`. -/
def pause : MediaHandle → CallArgs → Registry → Registry × ExecCall :=
  mediaExec "pausePlayingAudio" id none (some defaultErrorCallback)

/-- `Media.prototype.getDuration`. -/
def getDuration (self : MediaHandle) : Int := self.duration

/-- `Media.prototype.getCurrentPosition`: the success adapter returns the
closure `function(p) { player._position = p; args[0](p) }`; the error adapter
is `fail` (`args[1]`). -/
def getCurrentPosition : MediaHandle → CallArgs → Registry → Registry × ExecCall :=
  mediaExec "getCurrentPositionAudio" id
    (some (fun player args reg => (reg, SuccessCb.posUpdate player.id (arg args 0))))
    (some fail)

/-- `Media.prototype.startRecord`. -/
def startRecord : MediaHandle → CallArgs → Registry → Registry × ExecCall :=
  mediaExec "startRecordingAudio" src none (some defaultErrorCallback)

/-- `Media.prototype.stopRecord`. -/
def stopRecord : MediaHandle → CallArgs → Registry → Registry × ExecCall :=
  mediaExec "stopRecordingAudio" id none (some defaultErrorCallback)

/-- `Media.prototype.pauseRecord`. -/
def pauseRecord : MediaHandle → CallArgs → Registry → Registry × ExecCall :=
  mediaExec "pauseRecordingAudio" id none (some defaultErrorCallback)

/-- `Media.prototype.resumeRecord`. -/
def resumeRecord : MediaHandle → CallArgs → Registry → Registry × ExecCall :=
  mediaExec "resumeRecordingAudio" id none (some defaultErrorCallback)

/-- `Media.prototype.release`: the success adapter is
`function (self) { delete mediaObjects[self.id]; }` — it does NOT return an
inner closure, so it runs when the adapter is evaluated (at call time),
deleting the registry entry then, and hands `undefined` to `exec` as the
success callback. -/
def release : MediaHandle → CallArgs → Registry → Registry × ExecCall :=
  mediaExec "release" id
    (some (fun self _ reg => (removeObj reg self.id, SuccessCb.noCb)))
    (some defaultErrorCallback)

/-- `Media.prototype.setVolume`. -/
def setVolume : MediaHandle → CallArgs → Registry → Registry × ExecCall :=
  mediaExec "setVolume" oneArgument none none

/-- `Media.prototype.setRate`. -/
def setRate : MediaHandle → CallArgs → Registry → Registry × ExecCall :=
  mediaExec "setRate" oneArgument none none

/-- `Media.prototype.getCurrentAmplitude`. -/
def getCurrentAmplitude : MediaHandle → CallArgs → Registry → Registry × ExecCall :=
  mediaExec "getCurrentAmplitudeAudio" id (some success) (some fail)

/-- `Media.get(id)`. -/
def get (reg : Registry) (i : MediaId) : Option MediaHandle := lookup reg i

end Media

/-- `utils.createUUID` (external `cordova/utils` dependency) modelled as a
fresh-id supply from a counter; its uniqueness contract is the
`RegistryFresh` invariant below. -/
def createUUID (nextUuid : Nat) : MediaId := nextUuid

/-- Module-level state: the `mediaObjects` registry plus the id-supply
counter standing in for `createUUID`'s state. -/
structure MediaState where
  mediaObjects : Registry
  nextUuid : Nat
deriving DecidableEq, Repr

/-- Every registered id was drawn from the supply: the contract under which
`createUUID` returns ids unused by the registry. -/
def RegistryFresh (st : MediaState) : Prop :=
  ∀ p ∈ st.mediaObjects, p.1 < st.nextUuid

instance (st : MediaState) : Decidable (RegistryFresh st) := by
  unfold RegistryFresh; infer_instance

namespace Media

/-- The `Media` constructor: generates an id via `createUUID`, registers the
handle (`mediaObjects[this.id] = this`), stores `src` and the callbacks, sets
`this._duration = -1` and `this._position = -1`, and issues
`exec(createdCallback, this.errorCallback, "Media", "create",
[this.id, this.src])`. -/
def new (st : MediaState) (srcArg : String)
    (hasSucc hasErr hasStat : Bool) (createdCallback : JsArg) :
    MediaState × MediaHandle × ExecCall :=
  let i := createUUID st.nextUuid
  let handle : MediaHandle :=
    { id := i
      src := srcArg
      hasSuccessCallback := hasSucc
      hasErrorCallback := hasErr
      hasStatusCallback := hasStat
      duration := -1
      position := -1 }
  ({ mediaObjects := (i, handle) :: st.mediaObjects, nextUuid := st.nextUuid + 1 },
   handle,
   { success := SuccessCb.userFn createdCallback
     error := ErrorCb.fromHandle i
     service := "Media"
     action := "create"
     args := [JsArg.num i, JsArg.str srcArg] })

/-- The loop body sequence of `Media.forceStop`, iterating over the snapshot
of entries (`for (var k in mediaObjects)`; each step deletes only the current
key, so all original keys are visited): `mediaObjects[k].stop();
mediaObjects[k].release(); delete mediaObjects[k];`. -/
def forceStopAux : List (MediaId × MediaHandle) → Registry → Registry × List ExecCall
  | [], reg => (reg, [])
  | (k, m) :: rest, reg =>
      let c1 := stop m [] reg
      let c2 := release m [] c1.1
      let reg3 := removeObj c2.1 k
      let r := forceStopAux rest reg3
      (r.1, c1.2 :: c2.2 :: r.2)

/-- `Media.forceStop()`. -/
def forceStop (reg : Registry) : Registry × List ExecCall :=
  forceStopAux reg reg

/-- `Media.onStatus(id, msgType, value)`: look up the handle; if absent, log
and drop; otherwise branch on the message type (`switch(msgType)` with cases
in source order: STATE, DURATION, ERROR, POSITION, default). -/
def onStatus (reg : Registry) (i : MediaId) (msgType : Int) (value : Int) :
    Registry × List Event :=
  match lookup reg i with
  | some media =>
      if msgType = MEDIA_STATE then
        (reg,
          (if media.hasStatusCallback then [Event.statusCb i value] else []) ++
          (if value = MEDIA_STOPPED then
            (if media.hasSuccessCallback then [Event.successCb i] else [])
          else []))
      else if msgType = MEDIA_DURATION then
        (setDuration reg i value, [])
      else if msgType = MEDIA_ERROR then
        (reg, if media.hasErrorCallback then [Event.errorCb i value] else [])
      else if msgType = MEDIA_POSITION then
        (setPosition reg i (jsNumber value), [])
      else
        (reg, [Event.consoleError ("Unhandled Media.onStatus :: " ++ toString msgType)])
  | none =>
      (reg,
        [Event.consoleError
          ("Received Media.onStatus callback for unknown media :: " ++ toString i)])

end Media

/-- An inbound channel message `{action, status: {id, msgType, value}}`. -/
structure NativeMsg where
  action : String
  statusId : MediaId
  statusMsgType : Int
  statusValue : Int
deriving DecidableEq, Repr

/-- `onMessageFromNative(msg)`: dispatch `"status"` messages to
`Media.onStatus`; any other action throws
`new Error('Unknown media action' + msg.action)`. -/
def onMessageFromNative (reg : Registry) (msg : NativeMsg) :
    Except JsErr (Registry × List Event) :=
  if msg.action = "status" then
    Except.ok (Media.onStatus reg msg.statusId msg.statusMsgType msg.statusValue)
  else
    Except.error (JsErr.jsError ("Unknown media action" ++ msg.action))

/-- The bridge call that `stop()` issues, as a record. -/
def stopExec (m : MediaHandle) : ExecCall :=
  { success := SuccessCb.stopReset m.id
    error := ErrorCb.fromHandle m.id
    service := "Media"
    action := "stopPlayingAudio"
    args := [JsArg.num m.id] }

/-- The bridge call that `release()` issues, as a record.  Note its success
callback is absent: the adapter ran at call time and returned `undefined`. -/
def releaseExec (m : MediaHandle) : ExecCall :=
  { success := SuccessCb.noCb
    error := ErrorCb.fromHandle m.id
    service := "Media"
    action := "release"
    args := [JsArg.num m.id] }

-- Concrete fixtures used by witnesses and counterexamples.

/-- A registered handle with all user callbacks set and a cached position. -/
def h1 : MediaHandle :=
  { id := 1, src := "a.mp3", hasSuccessCallback := true, hasErrorCallback := true,
    hasStatusCallback := true, duration := -1, position := 5 }

/-- A registered handle with no user callbacks set. -/
def h2 : MediaHandle :=
  { id := 2, src := "b.mp3", hasSuccessCallback := false, hasErrorCallback := false,
    hasStatusCallback := false, duration := 3, position := 7 }

/-- A concrete two-handle registry. -/
def reg0 : Registry := [(1, h1), (2, h2)]

/-- A concrete module state whose registry satisfies the id-supply contract. -/
def st0 : MediaState := { mediaObjects := reg0, nextUuid := 3 }

-- Registry lemmas.

/-- Looking up after a keyed update: the entry under the updated key is
mapped by `f`; every other entry is untouched. -/
theorem lookup_updateObj (reg : Registry) (i j : MediaId) (f : MediaHandle → MediaHandle) :
    lookup (updateObj reg i f) j =
      if j = i then (lookup reg j).map f else lookup reg j := by
  induction reg with
  | nil => simp [lookup, updateObj]
  | cons p rest ih =>
      by_cases hpi : p.1 = i <;> by_cases hpj : p.1 = j <;> by_cases hji : j = i <;>
        simp_all [lookup, updateObj, beq_iff_eq]

/-- Looking up after a delete: the deleted key reads as absent, others are
untouched. -/
theorem lookup_removeObj (reg : Registry) (i j : MediaId) :
    lookup (removeObj reg i) j = if j = i then none else lookup reg j := by
  induction reg with
  | nil => simp [lookup, removeObj]
  | cons p rest ih =>
      by_cases hpi : p.1 = i <;> by_cases hpj : p.1 = j <;> by_cases hji : j = i <;>
        simp_all [lookup, removeObj, beq_iff_eq]

/-- `stop()` is `exec` with the deferred reset closure; the registry is not
touched at call time. -/
theorem stop_call (m : MediaHandle) (args : CallArgs) (reg : Registry) :
    Media.stop m args reg = (reg, stopExec m) := rfl

/-- `release()` deletes the registry entry at call time and issues the
bridge command with no success callback. -/
theorem release_call (m : MediaHandle) (args : CallArgs) (reg : Registry) :
    Media.release m args reg = (removeObj reg m.id, releaseExec m) := rfl

/-- C2, counterexample.  The claim says the cached position is reset
(`stop`) or updated (`seekTo`/`getCurrentPosition`) synchronously at the
time the method is called.  On the concrete registry `reg0`, handle 1 has
cached position 5; after calling `stop()`, `seekTo(1000, cb, cb)` and
`getCurrentPosition(cb)` the cached position is still 5 — the methods only
build the closures, they do not run them. -/
theorem position_not_updated_at_call_time :
    (lookup (Media.stop h1 [] reg0).1 1).map MediaHandle.position = some 5 ∧
    (lookup (Media.seekTo h1 [JsArg.num 1000, JsArg.fn, JsArg.fn] reg0).1 1).map
      MediaHandle.position = some 5 ∧
    (lookup (Media.getCurrentPosition h1 [JsArg.fn, JsArg.fn] reg0).1 1).map
      MediaHandle.position = some 5 ∧
    (5 : Int) ≠ 0 := by decide

/-- C2, amended: the success adapters of `stop`, `seekTo` and
`getCurrentPosition` build their side-effecting closures synchronously at
call time, but the local side effects (resetting the cached position to 0 on
stop, updating it on seek/position-query) execute only when the bridge
invokes the returned success callback; the call itself leaves the registry
unchanged. -/
theorem local_effects_run_at_bridge_success (reg : Registry) (m : MediaHandle)
    (args : CallArgs) (p : Int) :
    (Media.stop m args reg).1 = reg ∧
    (Media.seekTo m args reg).1 = reg ∧
    (Media.getCurrentPosition m args reg).1 = reg ∧
    (runSuccess (Media.stop m args reg).2.success p reg).1 = setPosition reg m.id 0 ∧
    (runSuccess (Media.seekTo m args reg).2.success p reg).1 = setPosition reg m.id p ∧
    (runSuccess (Media.getCurrentPosition m args reg).2.success p reg).1 =
      setPosition reg m.id p :=
  ⟨rfl, rfl, rfl, rfl, rfl, rfl⟩

/-- C4, counterexample.  The claim says `release()` removes the handle from
the registry as the success side-effect of the issued "release" bridge
command.  Concretely, immediately after `release()` returns — before any
bridge callback can fire — the entry is already gone, the issued command
carries no success callback at all, and invoking that (absent) success
callback changes nothing. -/
theorem release_removal_is_not_a_success_effect :
    Media.get (Media.release h1 [] reg0).1 1 = none ∧
    (Media.release h1 [] reg0).2.success = SuccessCb.noCb ∧
    runSuccess (Media.release h1 [] reg0).2.success 0 (Media.release h1 [] reg0).1 =
      ((Media.release h1 [] reg0).1, [], none) := by decide

/-- C4, amended: `release()` removes the handle from the registry
synchronously at call time (its success adapter runs while the bridge call
is being assembled and returns `undefined` to the bridge), and every
subsequent `Media.get(id)` for that handle's id returns nothing. -/
theorem release_removes_handle_at_call (reg : Registry) (m : MediaHandle)
    (args : CallArgs) :
    Media.release m args reg = (removeObj reg m.id, releaseExec m) ∧
    Media.get (Media.release m args reg).1 m.id = none := by
  refine ⟨rfl, ?_⟩
  show lookup (removeObj reg m.id) m.id = none
  rw [lookup_removeObj]
  simp

/-- C8: `seekTo` leaves the registry untouched at call time; its success
adapter is exactly the position-updating closure capturing `args[1]`; when
the bridge invokes it with payload `p` the cached position becomes `p`
(the value the bridge supplies); and the cached duration of every handle is
unchanged by that update — the update is independent of whether or when
duration was ever set. -/
theorem seekTo_updates_position_only_via_success (reg : Registry)
    (m : MediaHandle) (args : CallArgs) (p : Int) :
    (Media.seekTo m args reg).1 = reg ∧
    (Media.seekTo m args reg).2.success = SuccessCb.seekUpdate m.id (arg args 1) ∧
    (runSuccess (Media.seekTo m args reg).2.success p reg).1 = setPosition reg m.id p ∧
    ∀ j, (lookup (runSuccess (Media.seekTo m args reg).2.success p reg).1 j).map
            MediaHandle.duration
          = (lookup reg j).map MediaHandle.duration := by
  refine ⟨rfl, rfl, rfl, fun j => ?_⟩
  show (lookup (setPosition reg m.id p) j).map MediaHandle.duration = _
  rw [setPosition, lookup_updateObj]
  by_cases h : j = m.id
  · rw [if_pos h]
    cases lookup reg j <;> simp
  · rw [if_neg h]

/-- C9, counterexample.  The claim says that apart from the unknown-action
branch of the inbound channel handler, no failure path in the module throws.
But the success closure that `seekTo` hands to the bridge applies `args[1]`
unconditionally: when `seekTo` was called without a success-callback
argument, the bridge's invocation of that closure throws a `TypeError`. -/
theorem module_throws_outside_channel_handler :
    (runSuccess (Media.seekTo h1 [JsArg.num 1000] reg0).2.success 9 reg0).2.2 =
      some (JsErr.typeError "is not a function") := by decide

/-- C9, amended: an inbound channel message with action `"status"` is
dispatched to `Media.onStatus` with the contained id, msgType and value
(a total function — this path never throws); any other action raises a
fatal `Error`, and raising happens exactly on non-`"status"` actions.
(Other parts of the module can still throw, e.g. the seekTo success closure
without its user callback.) -/
theorem onMessageFromNative_dispatch (reg : Registry) (msg : NativeMsg) :
    onMessageFromNative reg msg =
      (if msg.action = "status" then
        Except.ok (Media.onStatus reg msg.statusId msg.statusMsgType msg.statusValue)
       else
        Except.error (JsErr.jsError ("Unknown media action" ++ msg.action))) ∧
    ((∃ e, onMessageFromNative reg msg = Except.error e) ↔ msg.action ≠ "status") := by
  constructor
  · rfl
  · by_cases h : msg.action = "status" <;> simp [onMessageFromNative, h]

/-- C10: the success closures of `seekTo` and `getCurrentPosition` apply the
user-supplied callback argument unconditionally (`args[1](p)` resp.
`args[0](p)`).  Called without that argument, the bridge's success callback
throws a `TypeError` (the position assignment preceding the call still
executes, JS mutation-before-throw); with the argument supplied, the user
callback is invoked with the bridge's value and nothing is thrown. -/
theorem seek_and_position_success_require_callback (reg : Registry)
    (m : MediaHandle) (msec p : Int) :
    runSuccess (Media.seekTo m [JsArg.num msec] reg).2.success p reg =
      (setPosition reg m.id p, [], some (JsErr.typeError "is not a function")) ∧
    runSuccess (Media.getCurrentPosition m [] reg).2.success p reg =
      (setPosition reg m.id p, [], some (JsErr.typeError "is not a function")) ∧
    runSuccess (Media.seekTo m [JsArg.num msec, JsArg.fn] reg).2.success p reg =
      (setPosition reg m.id p, [Event.userCb p], none) ∧
    runSuccess (Media.getCurrentPosition m [JsArg.fn] reg).2.success p reg =
      (setPosition reg m.id p, [Event.userCb p], none) :=
  ⟨rfl, rfl, rfl, rfl⟩

/-- C1: for a registered handle, a `MEDIA_STATE` status invokes the user
status callback with the value (if set), and exactly when the value equals
`MEDIA_STOPPED` additionally the user success callback (if set), in that
order; for any other state value only the status callback fires. -/
theorem onStatus_state_dispatch (reg : Registry) (i : MediaId)
    (m : MediaHandle) (v : Int) (h : lookup reg i = some m) :
    Media.onStatus reg i MEDIA_STATE v =
      (reg,
        (if m.hasStatusCallback then [Event.statusCb i v] else []) ++
        (if v = MEDIA_STOPPED then
          (if m.hasSuccessCallback then [Event.successCb i] else [])
         else [])) := by
  simp only [Media.onStatus, h, if_true]

/-- Witness for C1 at a concrete registered handle with both callbacks set
and `value = MEDIA_STOPPED`. -/
theorem onStatus_state_dispatch_witness :
    lookup reg0 1 = some h1 ∧
    Media.onStatus reg0 1 MEDIA_STATE MEDIA_STOPPED =
      (reg0,
        (if h1.hasStatusCallback then [Event.statusCb 1 MEDIA_STOPPED] else []) ++
        (if MEDIA_STOPPED = MEDIA_STOPPED then
          (if h1.hasSuccessCallback then [Event.successCb 1] else [])
         else [])) :=
  ⟨by decide, onStatus_state_dispatch reg0 1 h1 MEDIA_STOPPED (by decide)⟩

/-- C6: a status event for an id that is not registered changes nothing and
fires no user callback; it only logs a console warning. -/
theorem onStatus_unknown_id_is_noop (reg : Registry) (i : MediaId)
    (msgType value : Int) (h : lookup reg i = none) :
    Media.onStatus reg i msgType value =
      (reg,
        [Event.consoleError
          ("Received Media.onStatus callback for unknown media :: " ++ toString i)]) := by
  simp only [Media.onStatus, h]

/-- Witness for C6 at a concrete unregistered id. -/
theorem onStatus_unknown_id_is_noop_witness :
    lookup reg0 7 = none ∧
    Media.onStatus reg0 7 MEDIA_STATE MEDIA_STOPPED =
      (reg0,
        [Event.consoleError
          ("Received Media.onStatus callback for unknown media :: " ++ toString (7 : MediaId))]) :=
  ⟨by decide, onStatus_unknown_id_is_noop reg0 7 MEDIA_STATE MEDIA_STOPPED (by decide)⟩

/-- C7: for a registered handle, a `MEDIA_POSITION` status caches the
numeric coercion `Number(value)` as the handle's position and fires no user
callback. -/
theorem onStatus_position_caches_number (reg : Registry) (i : MediaId)
    (m : MediaHandle) (value : Int) (h : lookup reg i = some m) :
    Media.onStatus reg i MEDIA_POSITION value =
      (setPosition reg i (jsNumber value), []) ∧
    (lookup (Media.onStatus reg i MEDIA_POSITION value).1 i).map
        MediaHandle.position = some (jsNumber value) := by
  have heq : Media.onStatus reg i MEDIA_POSITION value =
      (setPosition reg i (jsNumber value), []) := by
    simp only [Media.onStatus, h, MEDIA_POSITION, MEDIA_STATE, MEDIA_DURATION, MEDIA_ERROR]
    norm_num
  refine ⟨heq, ?_⟩
  rw [heq]
  show (lookup (setPosition reg i (jsNumber value)) i).map MediaHandle.position = _
  rw [setPosition, lookup_updateObj, if_pos rfl, h]
  rfl

/-- Witness for C7 at a concrete registered handle and value. -/
theorem onStatus_position_caches_number_witness :
    lookup reg0 1 = some h1 ∧
    (Media.onStatus reg0 1 MEDIA_POSITION 42 =
        (setPosition reg0 1 (jsNumber 42), []) ∧
      (lookup (Media.onStatus reg0 1 MEDIA_POSITION 42).1 1).map
          MediaHandle.position = some (jsNumber 42)) :=
  ⟨by decide, onStatus_position_caches_number reg0 1 h1 42 (by decide)⟩

/-- Keys strictly below a bound are never found at the bound. -/
theorem lookup_eq_none_of_lt (reg : Registry) (n : Nat)
    (h : ∀ p ∈ reg, p.1 < n) : lookup reg n = none := by
  induction reg with
  | nil => rfl
  | cons p rest ih =>
      have hp : p.1 < n := h p (by simp)
      have hbeq : (p.1 == n) = false := beq_eq_false_iff_ne.mpr (Nat.ne_of_lt hp)
      simp only [lookup, hbeq, Bool.false_eq_true, if_false]
      exact ih (fun q hq => h q (by simp [hq]))

/-- C5: construction draws a fresh id (distinct from every id currently in
the registry, under the id-supply contract `RegistryFresh`), registers the
handle under it so `Media.get` returns it, initialises cached duration and
position to -1, and preserves the id-supply contract. -/
theorem constructor_registers_fresh_handle (st : MediaState) (srcArg : String)
    (b1 b2 b3 : Bool) (cb : JsArg) (h : RegistryFresh st) :
    lookup st.mediaObjects (Media.new st srcArg b1 b2 b3 cb).2.1.id = none ∧
    (∀ p ∈ st.mediaObjects, p.1 ≠ (Media.new st srcArg b1 b2 b3 cb).2.1.id) ∧
    Media.get (Media.new st srcArg b1 b2 b3 cb).1.mediaObjects
        (Media.new st srcArg b1 b2 b3 cb).2.1.id =
      some (Media.new st srcArg b1 b2 b3 cb).2.1 ∧
    (Media.new st srcArg b1 b2 b3 cb).2.1.duration = -1 ∧
    (Media.new st srcArg b1 b2 b3 cb).2.1.position = -1 ∧
    RegistryFresh (Media.new st srcArg b1 b2 b3 cb).1 := by
  refine ⟨?_, ?_, ?_, rfl, rfl, ?_⟩
  · exact lookup_eq_none_of_lt st.mediaObjects st.nextUuid h
  · intro p hp
    exact Nat.ne_of_lt (h p hp)
  · simp [Media.get, Media.new, createUUID, lookup]
  · intro p hp
    show p.1 < st.nextUuid + 1
    rcases List.mem_cons.mp hp with h1 | h2
    · rw [h1]
      exact Nat.lt_succ_self _
    · exact Nat.lt_succ_of_lt (h p h2)

/-- Witness for C5 at a concrete state satisfying the id-supply contract. -/
theorem constructor_registers_fresh_handle_witness :
    RegistryFresh st0 ∧
    (lookup st0.mediaObjects (Media.new st0 "c.mp3" true false true JsArg.undef).2.1.id = none ∧
     (∀ p ∈ st0.mediaObjects,
        p.1 ≠ (Media.new st0 "c.mp3" true false true JsArg.undef).2.1.id) ∧
     Media.get (Media.new st0 "c.mp3" true false true JsArg.undef).1.mediaObjects
         (Media.new st0 "c.mp3" true false true JsArg.undef).2.1.id =
       some (Media.new st0 "c.mp3" true false true JsArg.undef).2.1 ∧
     (Media.new st0 "c.mp3" true false true JsArg.undef).2.1.duration = -1 ∧
     (Media.new st0 "c.mp3" true false true JsArg.undef).2.1.position = -1 ∧
     RegistryFresh (Media.new st0 "c.mp3" true false true JsArg.undef).1) :=
  ⟨by decide,
   constructor_registers_fresh_handle st0 "c.mp3" true false true JsArg.undef (by decide)⟩

/-- Unfolding equation for one `forceStop` loop iteration: `stop` leaves the
registry alone, `release` deletes `m.id` at call time, then the loop deletes
the visited key `k`. -/
theorem forceStopAux_cons (k : MediaId) (m : MediaHandle)
    (rest : List (MediaId × MediaHandle)) (reg : Registry) :
    Media.forceStopAux ((k, m) :: rest) reg =
      ((Media.forceStopAux rest (removeObj (removeObj reg m.id) k)).1,
       stopExec m :: releaseExec m ::
         (Media.forceStopAux rest (removeObj (removeObj reg m.id) k)).2) := rfl

/-- Membership in a delete result implies membership before with a key
different from the deleted one. -/
theorem mem_removeObj (r : Registry) (i : MediaId) (q : MediaId × MediaHandle)
    (h : q ∈ removeObj r i) : q ∈ r ∧ q.1 ≠ i := by
  simp only [removeObj, List.mem_filter] at h
  exact ⟨h.1, by simpa using h.2⟩

/-- Every entry surviving the `forceStop` loop was already present and its
key is none of the visited keys. -/
theorem forceStopAux_mem (l : List (MediaId × MediaHandle)) :
    ∀ (reg : Registry) (q : MediaId × MediaHandle),
      q ∈ (Media.forceStopAux l reg).1 → q ∈ reg ∧ q.1 ∉ l.map Prod.fst := by
  induction l with
  | nil =>
      intro reg q hq
      exact ⟨hq, by simp⟩
  | cons p rest ih =>
      intro reg q hq
      obtain ⟨k, m⟩ := p
      rw [forceStopAux_cons] at hq
      obtain ⟨hq1, hq2⟩ := ih _ q hq
      obtain ⟨hq3, hk⟩ := mem_removeObj _ _ _ hq1
      obtain ⟨hq4, _⟩ := mem_removeObj _ _ _ hq3
      refine ⟨hq4, ?_⟩
      simp only [List.map_cons, List.mem_cons, not_or]
      exact ⟨hk, hq2⟩

/-- The loop issues, per visited entry, the `stop` bridge call followed by
the `release` bridge call. -/
theorem forceStopAux_calls (l : List (MediaId × MediaHandle)) :
    ∀ reg : Registry,
      (Media.forceStopAux l reg).2 =
        l.flatMap (fun p => [stopExec p.2, releaseExec p.2]) := by
  induction l with
  | nil => intro reg; rfl
  | cons p rest ih =>
      intro reg
      obtain ⟨k, m⟩ := p
      rw [forceStopAux_cons]
      simp [ih]

/-- C3: `forceStop` iterates all registered handles, issuing the `stop`
bridge call then the `release` bridge call for each, and on return the
registry is empty — every lookup returns nothing. -/
theorem forceStop_empties_registry (reg : Registry) :
    (Media.forceStop reg).1 = [] ∧
    (Media.forceStop reg).2 = reg.flatMap (fun p => [stopExec p.2, releaseExec p.2]) ∧
    ∀ i, Media.get (Media.forceStop reg).1 i = none := by
  have hempty : (Media.forceStop reg).1 = [] := by
    rw [List.eq_nil_iff_forall_not_mem]
    intro q hq
    obtain ⟨hmem, hnot⟩ := forceStopAux_mem reg reg q hq
    exact hnot (List.mem_map_of_mem Prod.fst hmem)
  refine ⟨hempty, forceStopAux_calls reg reg, fun i => ?_⟩
  rw [Media.get, hempty]
  rfl

end CordovaMedia
